import Mathlib

/-!
Verification of the MiEspejo habit-logging backend (`src/index.js` and the
unnamed duplicate listing `src/unnamed/part_000`, which additionally defines
the `POST /habits` handler).

The five Express route handlers are embedded as pure Lean functions of
  * the request fields they destructure from `req.body` / `req.params`
    (JavaScript values, including `undefined` for an absent field),
  * the server clock reading used for `new Date().toISOString()`, and
  * the reply of the Supabase row-store collaborator to the single call the
    handler makes.
Each handler returns the HTTP response it sends together with the list of
store calls it issued (table, payload, equality filters, ordering), so that
fail-fast validation ("no store call occurs") is a statement about the trace.

The row store itself is not part of the repository's sources; where a claim
needs its behaviour (insert defaults, select filtering/ordering, update
semantics), it is modelled from the spec in clearly marked definitions.
-/

namespace MiEspejo

/-- A JavaScript value as it appears in a parsed JSON request body.  An absent
field destructures to `undef`; JSON itself can encode `null`, booleans,
numbers and strings (objects/arrays never occur as the fields these handlers
read). Numbers are modelled as integers. -/
inductive JVal where
  | undef
  | null
  | bool (b : Bool)
  | num (n : Int)
  | str (s : String)
deriving DecidableEq

/-- JavaScript truthiness, as tested by `if (!x)`: `undefined`, `null`,
`false`, `0` and `""` are falsy. -/
def truthy : JVal → Bool
  | .undef => false
  | .null => false
  | .bool b => b
  | .num n => n != 0
  | .str s => s != ""

/-- `x === undefined`, the test used for `durationSeconds`. -/
def isUndef : JVal → Bool
  | .undef => true
  | _ => false

/-- A row of the `habit_types` table, with the columns the spec's data model
lists.  `id` and `created_at` are store-assigned. -/
structure HabitTypeRow where
  id : Nat
  user_id : JVal
  nombre : JVal
  tipo_registro : JVal
  meta_diaria : JVal
  is_active : Bool
  created_at : Nat
deriving DecidableEq

/-- A row of the `habit_logs` table. -/
structure HabitLogRow where
  id : Nat
  user_id : JVal
  habit_type_id : JVal
  fecha_inicio : String
  fecha_fin : Option String
  duracion_segundos : Option JVal
  notas : Option JVal
deriving DecidableEq

/-- One call to the row-store collaborator, as issued by a handler. -/
inductive StoreCall where
  | select (table : String) (eqFilters : List (String × JVal))
      (orderBy : String) (ascending : Bool)
  | insert (table : String) (row : List (String × JVal))
  | update (table : String) (patch : List (String × JVal))
      (eqFilter : String × JVal)
  | delete (table : String) (eqFilter : String × JVal)
deriving DecidableEq

/-- The JSON body of an HTTP response. -/
inductive RespBody where
  | errorBody (error : String)
  | messageBody (message : String)
  | logIdBody (logId : JVal)
  | rowsBody (rows : List HabitTypeRow)
deriving DecidableEq

structure HttpResponse where
  status : Nat
  body : RespBody
deriving DecidableEq

/-- `GET /habits/:userId` (src/index.js lines 45-66): validate the path
parameter, then select the user's active habit types ordered by creation
time.  `storeResp` is the store's reply to that select. -/
def getHabits (userId : String)
    (storeResp : Except String (List HabitTypeRow)) :
    HttpResponse × List StoreCall :=
  if !truthy (.str userId) then
    (⟨400, .errorBody "Falta el parámetro userId en la URL."⟩, [])
  else
    let call : StoreCall := .select "habit_types"
      [("user_id", .str userId), ("is_active", .bool true)] "created_at" true
    match storeResp with
    | .ok rows => (⟨200, .rowsBody rows⟩, [call])
    | .error m =>
        (⟨500, .errorBody ("Error al obtener hábitos: " ++ m)⟩, [call])

/-- `POST /habits` (src/unnamed/part_000 lines 71-99): validate the three
required body fields, then insert the new habit type. -/
def postHabits (userId nombre tipoRegistro metaDiaria : JVal)
    (storeResp : Except String Unit) : HttpResponse × List StoreCall :=
  if !truthy userId || !truthy nombre || !truthy tipoRegistro then
    (⟨400, .errorBody
        "Faltan campos obligatorios: userId, nombre o tipoRegistro."⟩, [])
  else
    let call : StoreCall := .insert "habit_types"
      [("user_id", userId), ("nombre", nombre),
       ("tipo_registro", tipoRegistro), ("meta_diaria", metaDiaria)]
    match storeResp with
    | .ok _ => (⟨201, .messageBody "Hábito creado correctamente"⟩, [call])
    | .error m =>
        (⟨500, .errorBody ("Error al crear hábito: " ++ m)⟩, [call])

/-- `POST /logs/event` (src/index.js lines 73-95): validate `userId` and
`habitTypeId`, then insert a habit log whose `fecha_inicio` is the server
clock reading `now`. -/
def postLogsEvent (userId habitTypeId : JVal) (now : String)
    (storeResp : Except String Unit) : HttpResponse × List StoreCall :=
  if !truthy userId || !truthy habitTypeId then
    (⟨400, .errorBody
        "Faltan userId o habitTypeId en el cuerpo de la petición."⟩, [])
  else
    let call : StoreCall := .insert "habit_logs"
      [("user_id", userId), ("habit_type_id", habitTypeId),
       ("fecha_inicio", .str now)]
    match storeResp with
    | .ok _ => (⟨201, .messageBody "Evento registrado"⟩, [call])
    | .error m =>
        (⟨500, .errorBody ("Error al registrar evento: " ++ m)⟩, [call])

/-- `POST /logs/session/start` (src/index.js lines 102-127): same insert as
the event handler, but with `.select('id').single()`, so the store reply
carries the new row's id, returned as `{ logId }`. -/
def postLogsSessionStart (userId habitTypeId : JVal) (now : String)
    (storeResp : Except String JVal) : HttpResponse × List StoreCall :=
  if !truthy userId || !truthy habitTypeId then
    (⟨400, .errorBody
        "Faltan userId o habitTypeId en el cuerpo de la petición."⟩, [])
  else
    let call : StoreCall := .insert "habit_logs"
      [("user_id", userId), ("habit_type_id", habitTypeId),
       ("fecha_inicio", .str now)]
    match storeResp with
    | .ok idv => (⟨201, .logIdBody idv⟩, [call])
    | .error m =>
        (⟨500, .errorBody ("Error al iniciar sesión: " ++ m)⟩, [call])

/-- `PUT /logs/session/end` (src/index.js lines 134-157): `logId` is checked
by falsiness, `durationSeconds` only against `undefined` (the source comment
notes `durationSeconds` may be 0); then one update on the row with
`id = logId`, setting `fecha_fin`, `duracion_segundos` and `notas`. -/
def putLogsSessionEnd (logId durationSeconds notas : JVal) (now : String)
    (storeResp : Except String Unit) : HttpResponse × List StoreCall :=
  if !truthy logId || isUndef durationSeconds then
    (⟨400, .errorBody
        "Faltan logId o durationSeconds en el cuerpo de la petición."⟩, [])
  else
    let call : StoreCall := .update "habit_logs"
      [("fecha_fin", .str now), ("duracion_segundos", durationSeconds),
       ("notas", notas)]
      ("id", logId)
    match storeResp with
    | .ok _ => (⟨200, .messageBody "Sesión finalizada correctamente"⟩, [call])
    | .error m =>
        (⟨500, .errorBody ("Error al finalizar sesión: " ++ m)⟩, [call])

/-! ## Spec-modelled row store

The Supabase store is an external collaborator; its behaviour is not in the
repository's sources.  The definitions below model the narrow interface the
spec describes (filtered select, insert with store-assigned id / defaults,
update by id) so that the insert-then-select and insert-then-update claims
can be stated end to end. -/

/-- The external store's state: the two tables and the next fresh row id. -/
structure StoreState where
  habitTypes : List HabitTypeRow
  habitLogs : List HabitLogRow
  nextId : Nat
deriving DecidableEq

/-- Modelled from the spec: the store's insert into `habit_types`.  The store
assigns `id` and `created_at` (insertion time `t`), and the schema default
sets `is_active` to true (spec: a created row satisfies the
`is_active = true` filter of the list operation). -/
def storeInsertHabitType (st : StoreState) (t : Nat)
    (userId nombre tipoRegistro metaDiaria : JVal) : StoreState :=
  { st with
    habitTypes := st.habitTypes ++
      [⟨st.nextId, userId, nombre, tipoRegistro, metaDiaria, true, t⟩],
    nextId := st.nextId + 1 }

/-- The predicate of the list operation's two equality filters:
`user_id = userId` and `is_active = true`. -/
def rowMatchesActiveUser (userId : JVal) (r : HabitTypeRow) : Bool :=
  decide (r.user_id = userId) && r.is_active

/-- The `created_at`-ascending order used by the list operation. -/
def createdLE (a b : HabitTypeRow) : Prop := a.created_at ≤ b.created_at

instance : DecidableRel createdLE := fun a b => Nat.decLe a.created_at b.created_at

instance : IsTotal HabitTypeRow createdLE :=
  ⟨fun a b => Nat.le_total a.created_at b.created_at⟩

instance : IsTrans HabitTypeRow createdLE :=
  ⟨fun _ _ _ hab hbc => Nat.le_trans hab hbc⟩

/-- Modelled from the spec: the store's reply to the list operation's select —
the `habit_types` rows passing both equality filters, ordered by `created_at`
ascending. -/
def storeSelectHabitTypes (st : StoreState) (userId : JVal) :
    List HabitTypeRow :=
  List.insertionSort createdLE (st.habitTypes.filter (rowMatchesActiveUser userId))

/-- Modelled from the spec: the store's insert into `habit_logs`.  The store
assigns a fresh `id`; the end fields start unset (the payload has no
`fecha_fin` and no `duracion_segundos`). -/
def storeInsertHabitLog (st : StoreState) (userId habitTypeId : JVal)
    (now : String) : StoreState :=
  { st with
    habitLogs := st.habitLogs ++
      [⟨st.nextId, userId, habitTypeId, now, none, none, none⟩],
    nextId := st.nextId + 1 }

/-- The per-row effect of the session-end update: a row whose `id` equals
`logId` gets exactly `fecha_fin`, `duracion_segundos` and `notas` patched;
any other row is untouched. -/
def endPatch (logId : JVal) (now : String) (dur notas : JVal)
    (r : HabitLogRow) : HabitLogRow :=
  if JVal.num (r.id : Int) = logId then
    { r with fecha_fin := some now, duracion_segundos := some dur,
             notas := some notas }
  else r

/-- Modelled from the spec: the store's update on `habit_logs` with the
equality filter `id = logId`, patching only the three given fields. -/
def storeUpdateHabitLogEnd (st : StoreState) (logId : JVal) (now : String)
    (dur notas : JVal) : StoreState :=
  { st with habitLogs := st.habitLogs.map (endPatch logId now dur notas) }

/-! ## Handlers composed with the modelled store (success path) -/

/-- The list operation run against the modelled store. -/
def runGetHabits (st : StoreState) (userId : String) :
    HttpResponse × List StoreCall :=
  getHabits userId (.ok (storeSelectHabitTypes st (.str userId)))

/-- The create-habit-type operation run against the modelled store: the state
changes only when validation passed (the handler issued its insert). -/
def runPostHabits (st : StoreState) (t : Nat)
    (userId nombre tipoRegistro metaDiaria : JVal) :
    (HttpResponse × List StoreCall) × StoreState :=
  let res := postHabits userId nombre tipoRegistro metaDiaria (.ok ())
  if !truthy userId || !truthy nombre || !truthy tipoRegistro then (res, st)
  else (res, storeInsertHabitType st t userId nombre tipoRegistro metaDiaria)

/-- The log-event operation run against the modelled store. -/
def runPostLogsEvent (st : StoreState) (now : String)
    (userId habitTypeId : JVal) :
    (HttpResponse × List StoreCall) × StoreState :=
  let res := postLogsEvent userId habitTypeId now (.ok ())
  if !truthy userId || !truthy habitTypeId then (res, st)
  else (res, storeInsertHabitLog st userId habitTypeId now)

/-- The start-session operation run against the modelled store: the store
reply carries the id it assigned to the inserted row. -/
def runPostLogsSessionStart (st : StoreState) (now : String)
    (userId habitTypeId : JVal) :
    (HttpResponse × List StoreCall) × StoreState :=
  let res := postLogsSessionStart userId habitTypeId now
    (.ok (.num (st.nextId : Int)))
  if !truthy userId || !truthy habitTypeId then (res, st)
  else (res, storeInsertHabitLog st userId habitTypeId now)

/-- The end-session operation run against the modelled store. -/
def runPutLogsSessionEnd (st : StoreState) (now : String)
    (logId dur notas : JVal) :
    (HttpResponse × List StoreCall) × StoreState :=
  let res := putLogsSessionEnd logId dur notas now (.ok ())
  if !truthy logId || isUndef dur then (res, st)
  else (res, storeUpdateHabitLogEnd st logId now dur notas)

/-! ## Raw-request wrappers

Express hands each handler the whole request; the handler destructures the
fields it uses.  These wrappers model that: a body is an association list of
fields, an absent field reads as `undefined`, and the handler's result is a
function of the looked-up fields only. -/

/-- Reading a field from a JSON body: an absent field is `undefined`. -/
def bodyGet (body : List (String × JVal)) (k : String) : JVal :=
  match body.find? (fun p => p.1 == k) with
  | some p => p.2
  | none => (.undef)

/-- Reading a path parameter (Express params are strings). -/
def paramGet (params : List (String × String)) (k : String) : String :=
  match params.find? (fun p => p.1 == k) with
  | some p => p.2
  | none => ""

def getHabitsRaw (params : List (String × String))
    (storeResp : Except String (List HabitTypeRow)) :
    HttpResponse × List StoreCall :=
  getHabits (paramGet params "userId") storeResp

def postHabitsRaw (body : List (String × JVal))
    (storeResp : Except String Unit) : HttpResponse × List StoreCall :=
  postHabits (bodyGet body "userId") (bodyGet body "nombre")
    (bodyGet body "tipoRegistro") (bodyGet body "metaDiaria") storeResp

def postLogsEventRaw (body : List (String × JVal)) (now : String)
    (storeResp : Except String Unit) : HttpResponse × List StoreCall :=
  postLogsEvent (bodyGet body "userId") (bodyGet body "habitTypeId") now
    storeResp

def postLogsSessionStartRaw (body : List (String × JVal)) (now : String)
    (storeResp : Except String JVal) : HttpResponse × List StoreCall :=
  postLogsSessionStart (bodyGet body "userId") (bodyGet body "habitTypeId")
    now storeResp

def putLogsSessionEndRaw (body : List (String × JVal)) (now : String)
    (storeResp : Except String Unit) : HttpResponse × List StoreCall :=
  putLogsSessionEnd (bodyGet body "logId") (bodyGet body "durationSeconds")
    (bodyGet body "notas") now storeResp

/-! ## Trace predicates for the lifecycle invariant -/

/-- Does a store call write either end field (`fecha_fin` or
`duracion_segundos`)? -/
def writesEndFields : StoreCall → Bool
  | .select _ _ _ _ => false
  | .insert _ row =>
      row.any (fun p => p.1 == "fecha_fin" || p.1 == "duracion_segundos")
  | .update _ patch _ =>
      patch.any (fun p => p.1 == "fecha_fin" || p.1 == "duracion_segundos")
  | .delete _ _ => false

/-- Is a store call a delete? -/
def isDelete : StoreCall → Bool
  | .select _ _ _ _ => false
  | .insert _ _ => false
  | .update _ _ _ => false
  | .delete _ _ => true

/-- Does `pat` begin the character list `s`? -/
def beginsWith : List Char → List Char → Bool
  | [], _ => true
  | _ :: _, [] => false
  | p :: ps, c :: cs => decide (p = c) && beginsWith ps cs

/-- Does `pat` occur somewhere in the character list? -/
def occursIn (pat : List Char) : List Char → Bool
  | [] => beginsWith pat []
  | c :: cs => beginsWith pat (c :: cs) || occursIn pat cs

/-- Does `pat` occur in `s` as a substring?  Used to state that a validation
message names the missing field. -/
def containsStr (s pat : String) : Bool := occursIn pat.data s.data

/-! ## Helper lemmas -/

theorem truthy_str_iff {s : String} : truthy (.str s) = true ↔ s ≠ "" := by
  simp [truthy]

theorem isUndef_eq_false {v : JVal} (h : v ≠ .undef) : isUndef v = false := by
  cases v <;> simp_all [isUndef]

theorem truthy_undef : truthy .undef = false := rfl

theorem isUndef_undef : isUndef .undef = true := rfl

theorem isUndef_null : isUndef .null = false := rfl

/-! ## Claim theorems -/

/-- C4: a list request whose `userId` path segment is empty takes the
handler's missing-userId validation branch: status 400 with exactly the body
`{error: "Falta el parámetro userId en la URL."}`, and no store call,
whatever the store would have replied. -/
theorem getHabits_empty_userId_400
    (resp : Except String (List HabitTypeRow)) :
    getHabits "" resp =
      (⟨400, .errorBody "Falta el parámetro userId en la URL."⟩, []) := rfl

/-- C2: every request missing a required field is rejected with 400, a
non-empty error message naming the missing field(s), and no store call —
for the list (empty `userId`), create-habit-type (`userId`, `nombre`,
`tipoRegistro`), log-event and start-session (`userId`, `habitTypeId`), and
end-session (`logId`, `durationSeconds`) operations.  An absent body field
destructures to `undefined`. -/
theorem missing_required_field_400_no_store_call
    (u n t m uid hid lid dur nts : JVal) (now now2 now3 : String)
    (r1 : Except String (List HabitTypeRow)) (r2 r3 r5 : Except String Unit)
    (r4 : Except String JVal) :
    (getHabits "" r1 =
        (⟨400, .errorBody "Falta el parámetro userId en la URL."⟩, [])
      ∧ "Falta el parámetro userId en la URL." ≠ ""
      ∧ containsStr "Falta el parámetro userId en la URL." "userId" = true)
    ∧ ((u = .undef ∨ n = .undef ∨ t = .undef) →
        postHabits u n t m r2 =
          (⟨400, .errorBody
              "Faltan campos obligatorios: userId, nombre o tipoRegistro."⟩,
            []))
    ∧ ("Faltan campos obligatorios: userId, nombre o tipoRegistro." ≠ ""
      ∧ containsStr
          "Faltan campos obligatorios: userId, nombre o tipoRegistro."
          "userId" = true
      ∧ containsStr
          "Faltan campos obligatorios: userId, nombre o tipoRegistro."
          "nombre" = true
      ∧ containsStr
          "Faltan campos obligatorios: userId, nombre o tipoRegistro."
          "tipoRegistro" = true)
    ∧ ((uid = .undef ∨ hid = .undef) →
        postLogsEvent uid hid now r3 =
          (⟨400, .errorBody
              "Faltan userId o habitTypeId en el cuerpo de la petición."⟩,
            []))
    ∧ ((uid = .undef ∨ hid = .undef) →
        postLogsSessionStart uid hid now2 r4 =
          (⟨400, .errorBody
              "Faltan userId o habitTypeId en el cuerpo de la petición."⟩,
            []))
    ∧ ("Faltan userId o habitTypeId en el cuerpo de la petición." ≠ ""
      ∧ containsStr
          "Faltan userId o habitTypeId en el cuerpo de la petición."
          "userId" = true
      ∧ containsStr
          "Faltan userId o habitTypeId en el cuerpo de la petición."
          "habitTypeId" = true)
    ∧ ((lid = .undef ∨ dur = .undef) →
        putLogsSessionEnd lid dur nts now3 r5 =
          (⟨400, .errorBody
              "Faltan logId o durationSeconds en el cuerpo de la petición."⟩,
            []))
    ∧ ("Faltan logId o durationSeconds en el cuerpo de la petición." ≠ ""
      ∧ containsStr
          "Faltan logId o durationSeconds en el cuerpo de la petición."
          "logId" = true
      ∧ containsStr
          "Faltan logId o durationSeconds en el cuerpo de la petición."
          "durationSeconds" = true) := by
  refine ⟨⟨rfl, by decide, by decide⟩, ?_,
    ⟨by decide, by decide, by decide, by decide⟩, ?_, ?_,
    ⟨by decide, by decide, by decide⟩, ?_, ⟨by decide, by decide, by decide⟩⟩
  · rintro (rfl | rfl | rfl) <;> simp [postHabits, truthy_undef]
  · rintro (rfl | rfl) <;> simp [postLogsEvent, truthy_undef]
  · rintro (rfl | rfl) <;> simp [postLogsSessionStart, truthy_undef]
  · rintro (rfl | rfl) <;> simp [putLogsSessionEnd, truthy_undef, isUndef_undef]

/-- Witness for C2: a create request missing `userId` and an end-session
request missing `durationSeconds` are both rejected with 400 and an empty
call trace. -/
theorem missing_required_field_400_no_store_call_witness :
    postHabits .undef (.str "Leer") (.str "contador") .null (.ok ()) =
      (⟨400, .errorBody
          "Faltan campos obligatorios: userId, nombre o tipoRegistro."⟩, [])
    ∧ putLogsSessionEnd (.num 7) .undef (.undef) "T0" (.ok ()) =
      (⟨400, .errorBody
          "Faltan logId o durationSeconds en el cuerpo de la petición."⟩,
        []) :=
  ⟨(missing_required_field_400_no_store_call .undef (.str "Leer")
      (.str "contador") .null .undef .undef (.num 7) .undef (.undef)
      "T0" "T0" "T0" (.ok []) (.ok ()) (.ok ()) (.ok ())
      (.ok (.num 0))).2.1 (Or.inl rfl),
   (missing_required_field_400_no_store_call .undef (.str "Leer")
      (.str "contador") .null .undef .undef (.num 7) .undef (.undef)
      "T0" "T0" "T0" (.ok []) (.ok ()) (.ok ()) (.ok ())
      (.ok (.num 0))).2.2.2.2.2.2.1 (Or.inr rfl)⟩

/-- C1 counterexample: in the body `{logId: 0, durationSeconds: 120}` both
fields are present, yet the handler returns 400 and issues no store update —
`logId` is tested by falsiness (`!logId`), so the present value 0 is treated
as missing. -/
theorem endSession_logId_zero_counterexample :
    putLogsSessionEnd (.num 0) (.num 120) (.undef) "T0" (.ok ()) =
      (⟨400, .errorBody
          "Faltan logId o durationSeconds en el cuerpo de la petición."⟩,
        []) := by decide

/-- C1 (amended): for every end-session request whose `logId` is present and
truthy and whose `durationSeconds` is present — including
`durationSeconds = 0`, which is not treated as missing — the handler does not
return 400; it issues exactly one store update on the `habit_logs` row with
`id = logId`, setting `fecha_fin` to the current server time,
`duracion_segundos` to `durationSeconds` and `notas` to the supplied value,
and on store success responds 200 with the message
"Sesión finalizada correctamente". -/
theorem endSession_truthy_logId_duration_present
    (logId dur nts : JVal) (now : String) (resp : Except String Unit)
    (hl : truthy logId = true) (hd : dur ≠ .undef) :
    (putLogsSessionEnd logId dur nts now resp).1.status ≠ 400
    ∧ (putLogsSessionEnd logId dur nts now resp).2 =
        [.update "habit_logs"
          [("fecha_fin", .str now), ("duracion_segundos", dur),
           ("notas", nts)] ("id", logId)]
    ∧ (resp = .ok () →
        putLogsSessionEnd logId dur nts now resp =
          (⟨200, .messageBody "Sesión finalizada correctamente"⟩,
           [.update "habit_logs"
             [("fecha_fin", .str now), ("duracion_segundos", dur),
              ("notas", nts)] ("id", logId)])) := by
  have hd' : isUndef dur = false := isUndef_eq_false hd
  cases resp <;> simp [putLogsSessionEnd, hl, hd']

/-- Witness for C1 (amended): ending the session of log 42 with a zero
duration and no notes succeeds with the confirmation message. -/
theorem endSession_truthy_logId_duration_present_witness :
    truthy (.num 42) = true ∧ (JVal.num 0) ≠ .undef
    ∧ putLogsSessionEnd (.num 42) (.num 0) (.undef) "T0" (.ok ()) =
        (⟨200, .messageBody "Sesión finalizada correctamente"⟩,
         [.update "habit_logs"
           [("fecha_fin", .str "T0"), ("duracion_segundos", .num 0),
            ("notas", .undef)] ("id", .num 42)]) :=
  ⟨by decide, by decide,
   (endSession_truthy_logId_duration_present (.num 42) (.num 0) (.undef) "T0"
      (.ok ()) (by decide) (by decide)).2.2 rfl⟩

/-- C5: whenever the store reports an error, every operation responds 500
with a body whose single `error` field is the operation's Spanish
description followed by ": " and the store's original message — so the
store's message appears in the response verbatim as a suffix, hence as a
substring — and the call trace holds exactly one call: no retry, no further
store call. -/
theorem store_error_500_wraps_message
    (m : String) (u : String) (hu : u ≠ "")
    (cu cn ct cm : JVal) (hcu : truthy cu = true) (hcn : truthy cn = true)
    (hct : truthy ct = true)
    (eu eh : JVal) (heu : truthy eu = true) (heh : truthy eh = true)
    (lid dur nts : JVal) (hl : truthy lid = true) (hd : dur ≠ .undef)
    (now : String) :
    getHabits u (.error m) =
      (⟨500, .errorBody ("Error al obtener hábitos: " ++ m)⟩,
       [.select "habit_types" [("user_id", .str u), ("is_active", .bool true)]
          "created_at" true])
    ∧ postHabits cu cn ct cm (.error m) =
      (⟨500, .errorBody ("Error al crear hábito: " ++ m)⟩,
       [.insert "habit_types"
          [("user_id", cu), ("nombre", cn), ("tipo_registro", ct),
           ("meta_diaria", cm)]])
    ∧ postLogsEvent eu eh now (.error m) =
      (⟨500, .errorBody ("Error al registrar evento: " ++ m)⟩,
       [.insert "habit_logs"
          [("user_id", eu), ("habit_type_id", eh),
           ("fecha_inicio", .str now)]])
    ∧ postLogsSessionStart eu eh now (.error m) =
      (⟨500, .errorBody ("Error al iniciar sesión: " ++ m)⟩,
       [.insert "habit_logs"
          [("user_id", eu), ("habit_type_id", eh),
           ("fecha_inicio", .str now)]])
    ∧ putLogsSessionEnd lid dur nts now (.error m) =
      (⟨500, .errorBody ("Error al finalizar sesión: " ++ m)⟩,
       [.update "habit_logs"
          [("fecha_fin", .str now), ("duracion_segundos", dur),
           ("notas", nts)] ("id", lid)])
    ∧ (∃ p, "Error al obtener hábitos: " ++ m = p ++ m)
    ∧ (∃ p, "Error al crear hábito: " ++ m = p ++ m)
    ∧ (∃ p, "Error al registrar evento: " ++ m = p ++ m)
    ∧ (∃ p, "Error al iniciar sesión: " ++ m = p ++ m)
    ∧ (∃ p, "Error al finalizar sesión: " ++ m = p ++ m) := by
  have hu' : truthy (.str u) = true := truthy_str_iff.mpr hu
  have hd' : isUndef dur = false := isUndef_eq_false hd
  exact ⟨by simp [getHabits, hu'], by simp [postHabits, hcu, hcn, hct],
    by simp [postLogsEvent, heu, heh],
    by simp [postLogsSessionStart, heu, heh],
    by simp [putLogsSessionEnd, hl, hd'],
    ⟨_, rfl⟩, ⟨_, rfl⟩, ⟨_, rfl⟩, ⟨_, rfl⟩, ⟨_, rfl⟩⟩

/-- Witness for C5: a failing select and a failing update surface the store
message "duplicate key" inside a 500 body, with a single-call trace. -/
theorem store_error_500_wraps_message_witness :
    getHabits "u1" (.error "duplicate key") =
      (⟨500, .errorBody ("Error al obtener hábitos: " ++ "duplicate key")⟩,
       [.select "habit_types"
          [("user_id", .str "u1"), ("is_active", .bool true)]
          "created_at" true])
    ∧ putLogsSessionEnd (.num 42) (.num 0) (.undef) "T0"
        (.error "duplicate key") =
      (⟨500, .errorBody ("Error al finalizar sesión: " ++ "duplicate key")⟩,
       [.update "habit_logs"
          [("fecha_fin", .str "T0"), ("duracion_segundos", .num 0),
           ("notas", .undef)] ("id", .num 42)]) :=
  ⟨(store_error_500_wraps_message "duplicate key" "u1" (by decide)
      (.str "u") (.str "n") (.str "t") .null (by decide) (by decide)
      (by decide) (.str "u") (.str "h") (by decide) (by decide)
      (.num 42) (.num 0) .undef (by decide) (by decide) "T0").1,
   (store_error_500_wraps_message "duplicate key" "u1" (by decide)
      (.str "u") (.str "n") (.str "t") .null (by decide) (by decide)
      (by decide) (.str "u") (.str "h") (by decide) (by decide)
      (.num 42) (.num 0) .undef (by decide) (by decide)
      "T0").2.2.2.2.1⟩

/-- C6: for every non-empty `userId` the list operation issues exactly one
select on `habit_types` with equality filters `user_id = userId` and
`is_active = true`, ordered by `created_at` ascending, and on store success
responds 200 with the returned rows; against the modelled store the returned
rows are exactly that user's active habit types, sorted by creation time. -/
theorem listHabits_one_select_active_sorted
    (u : String) (hu : u ≠ "") (st : StoreState)
    (resp : Except String (List HabitTypeRow)) (rows : List HabitTypeRow) :
    (getHabits u resp).2 =
      [.select "habit_types" [("user_id", .str u), ("is_active", .bool true)]
        "created_at" true]
    ∧ getHabits u (.ok rows) =
        (⟨200, .rowsBody rows⟩,
         [.select "habit_types"
            [("user_id", .str u), ("is_active", .bool true)]
            "created_at" true])
    ∧ runGetHabits st u =
        (⟨200, .rowsBody (storeSelectHabitTypes st (.str u))⟩,
         [.select "habit_types"
            [("user_id", .str u), ("is_active", .bool true)]
            "created_at" true])
    ∧ (∀ r : HabitTypeRow, r ∈ storeSelectHabitTypes st (.str u) ↔
        (r ∈ st.habitTypes ∧ r.user_id = .str u ∧ r.is_active = true))
    ∧ List.Sorted createdLE (storeSelectHabitTypes st (.str u)) := by
  have hu' : truthy (.str u) = true := truthy_str_iff.mpr hu
  refine ⟨?_, ?_, ?_, ?_, ?_⟩
  · cases resp <;> simp [getHabits, hu']
  · simp [getHabits, hu']
  · simp [runGetHabits, getHabits, hu']
  · intro r
    unfold storeSelectHabitTypes
    rw [(List.perm_insertionSort createdLE _).mem_iff, List.mem_filter]
    simp [rowMatchesActiveUser, and_assoc]
  · exact List.sorted_insertionSort createdLE _

/-- Witness for C6: on a store holding an active and an inactive habit type
of "u1" and an active one of "u2", listing "u1" selects exactly u1's active
row. -/
theorem listHabits_one_select_active_sorted_witness :
    runGetHabits
      ⟨[⟨0, .str "u1", .str "Leer", .str "contador", .null, true, 5⟩,
        ⟨1, .str "u1", .str "Correr", .str "cronometro", .num 30, false, 3⟩,
        ⟨2, .str "u2", .str "Nadar", .str "contador", .null, true, 1⟩],
       [], 3⟩ "u1" =
      (⟨200, .rowsBody (storeSelectHabitTypes
          ⟨[⟨0, .str "u1", .str "Leer", .str "contador", .null, true, 5⟩,
            ⟨1, .str "u1", .str "Correr", .str "cronometro", .num 30, false,
              3⟩,
            ⟨2, .str "u2", .str "Nadar", .str "contador", .null, true, 1⟩],
           [], 3⟩ (.str "u1"))⟩,
       [.select "habit_types"
          [("user_id", .str "u1"), ("is_active", .bool true)]
          "created_at" true])
    ∧ storeSelectHabitTypes
        ⟨[⟨0, .str "u1", .str "Leer", .str "contador", .null, true, 5⟩,
          ⟨1, .str "u1", .str "Correr", .str "cronometro", .num 30, false, 3⟩,
          ⟨2, .str "u2", .str "Nadar", .str "contador", .null, true, 1⟩],
         [], 3⟩ (.str "u1") =
        [⟨0, .str "u1", .str "Leer", .str "contador", .null, true, 5⟩] :=
  ⟨(listHabits_one_select_active_sorted "u1" (by decide)
      ⟨[⟨0, .str "u1", .str "Leer", .str "contador", .null, true, 5⟩,
        ⟨1, .str "u1", .str "Correr", .str "cronometro", .num 30, false, 3⟩,
        ⟨2, .str "u2", .str "Nadar", .str "contador", .null, true, 1⟩],
       [], 3⟩ (.ok []) []).2.2.1,
   by decide⟩

/-- C7: for every start-session request with truthy `userId` and
`habitTypeId`, the handler issues exactly one insert of a `habit_logs` row
carrying `user_id`, `habit_type_id` and `fecha_inicio` = the server time —
and neither `fecha_fin` nor `duracion_segundos` — and on store success
responds 201 with `{logId}`, the id the store assigned to that new row. -/
theorem startSession_inserts_open_log_returns_id
    (u h : JVal) (hu : truthy u = true) (hh : truthy h = true)
    (now : String) (resp : Except String JVal) (st : StoreState) :
    (postLogsSessionStart u h now resp).2 =
      [.insert "habit_logs"
        [("user_id", u), ("habit_type_id", h), ("fecha_inicio", .str now)]]
    ∧ writesEndFields (.insert "habit_logs"
        [("user_id", u), ("habit_type_id", h),
         ("fecha_inicio", .str now)]) = false
    ∧ (∀ idv, resp = .ok idv →
        (postLogsSessionStart u h now resp).1 = ⟨201, .logIdBody idv⟩)
    ∧ runPostLogsSessionStart st now u h =
        ((⟨201, .logIdBody (.num (st.nextId : Int))⟩,
          [.insert "habit_logs"
            [("user_id", u), ("habit_type_id", h),
             ("fecha_inicio", .str now)]]),
         (⟨st.habitTypes,
           st.habitLogs ++ [⟨st.nextId, u, h, now, none, none, none⟩],
           st.nextId + 1⟩ : StoreState)) := by
  refine ⟨?_, rfl, ?_, ?_⟩
  · cases resp <;> simp [postLogsSessionStart, hu, hh]
  · rintro idv rfl
    simp [postLogsSessionStart, hu, hh]
  · simp [runPostLogsSessionStart, postLogsSessionStart,
      storeInsertHabitLog, hu, hh]

/-- Witness for C7: starting a session on an empty store inserts the open
log row with id 0 and returns `{logId: 0}`. -/
theorem startSession_inserts_open_log_returns_id_witness :
    truthy (.str "u1") = true ∧ truthy (.str "h1") = true
    ∧ runPostLogsSessionStart ⟨[], [], 0⟩ "T0" (.str "u1") (.str "h1") =
        ((⟨201, .logIdBody (.num ((0 : Nat) : Int))⟩,
          [.insert "habit_logs"
            [("user_id", .str "u1"), ("habit_type_id", .str "h1"),
             ("fecha_inicio", .str "T0")]]),
         ⟨[], [⟨0, .str "u1", .str "h1", "T0", none, none, none⟩], 1⟩) :=
  ⟨by decide, by decide,
   (startSession_inserts_open_log_returns_id (.str "u1") (.str "h1")
      (by decide) (by decide) "T0" (.ok (.num 0)) ⟨[], [], 0⟩).2.2.2⟩

/-- C3: after a valid create-habit-type call (all three required fields
non-empty) succeeds at the modelled store, listing the same user's habit
types responds 200 and its rows contain a row whose `nombre`,
`tipo_registro` and `meta_diaria` equal the submitted values and whose
`is_active` is true — the created row passes the list operation's
`is_active = true` filter. -/
theorem createHabit_then_listed_active
    (st : StoreState) (t : Nat) (u n tr : String) (md : JVal)
    (hu : u ≠ "") (hn : n ≠ "") (ht : tr ≠ "") :
    (runPostHabits st t (.str u) (.str n) (.str tr) md).1.1 =
      ⟨201, .messageBody "Hábito creado correctamente"⟩
    ∧ (runGetHabits (runPostHabits st t (.str u) (.str n) (.str tr) md).2
        u).1 =
      ⟨200, .rowsBody (storeSelectHabitTypes
        (runPostHabits st t (.str u) (.str n) (.str tr) md).2 (.str u))⟩
    ∧ ∃ r, r ∈ storeSelectHabitTypes
          (runPostHabits st t (.str u) (.str n) (.str tr) md).2 (.str u)
        ∧ r.nombre = .str n ∧ r.tipo_registro = .str tr
        ∧ r.meta_diaria = md ∧ r.is_active = true := by
  have hu' : truthy (.str u) = true := truthy_str_iff.mpr hu
  have hn' : truthy (.str n) = true := truthy_str_iff.mpr hn
  have ht' : truthy (.str tr) = true := truthy_str_iff.mpr ht
  have hst : (runPostHabits st t (.str u) (.str n) (.str tr) md).2 =
      storeInsertHabitType st t (.str u) (.str n) (.str tr) md := by
    simp [runPostHabits, hu', hn', ht']
  refine ⟨?_, ?_, ?_⟩
  · simp [runPostHabits, postHabits, hu', hn', ht']
  · simp [runGetHabits, getHabits, hu']
  · refine ⟨⟨st.nextId, .str u, .str n, .str tr, md, true, t⟩, ?_,
      rfl, rfl, rfl, rfl⟩
    rw [hst]
    unfold storeSelectHabitTypes
    rw [(List.perm_insertionSort createdLE _).mem_iff, List.mem_filter]
    constructor
    · simp [storeInsertHabitType]
    · simp [rowMatchesActiveUser]

/-- Witness for C3: creating "Leer" for "u1" on an empty store and then
listing "u1" yields exactly the created row, active. -/
theorem createHabit_then_listed_active_witness :
    (runPostHabits ⟨[], [], 0⟩ 0 (.str "u1") (.str "Leer") (.str "contador")
        .null).1.1 = ⟨201, .messageBody "Hábito creado correctamente"⟩
    ∧ (runGetHabits (runPostHabits ⟨[], [], 0⟩ 0 (.str "u1") (.str "Leer")
        (.str "contador") .null).2 "u1").1 =
      ⟨200, .rowsBody (storeSelectHabitTypes
        (runPostHabits ⟨[], [], 0⟩ 0 (.str "u1") (.str "Leer")
          (.str "contador") .null).2 (.str "u1"))⟩
    ∧ storeSelectHabitTypes
        (runPostHabits ⟨[], [], 0⟩ 0 (.str "u1") (.str "Leer")
          (.str "contador") .null).2 (.str "u1") =
        [⟨0, .str "u1", .str "Leer", .str "contador", .null, true, 0⟩] :=
  ⟨(createHabit_then_listed_active ⟨[], [], 0⟩ 0 "u1" "Leer" "contador"
      .null (by decide) (by decide) (by decide)).1,
   (createHabit_then_listed_active ⟨[], [], 0⟩ 0 "u1" "Leer" "contador"
      .null (by decide) (by decide) (by decide)).2.1,
   by decide⟩

/-- C8: rows inserted into `habit_logs` by log-event and start-session carry
`fecha_inicio` and have both end fields unset; the four non-end handlers
never emit a call writing `fecha_fin` or `duracion_segundos`; the
end-session trace is at most the single update on the row `id = logId`
patching exactly `fecha_fin`, `duracion_segundos` and `notas`; under the
modelled store that update changes no other row and no other field of the
target row; and no handler emits a delete, nor does any modelled operation
drop a `habit_logs` row. -/
theorem habitLog_lifecycle_invariant
    (st : StoreState) (now : String) (u h : JVal)
    (hu : truthy u = true) (hh : truthy h = true)
    (us : String) (cu cn ct cm vu vh lid dur nts : JVal)
    (r1 : Except String (List HabitTypeRow)) (r2 r3 r5 : Except String Unit)
    (r4 : Except String JVal) (r : HabitLogRow) :
    (runPostLogsEvent st now u h).2.habitLogs =
      st.habitLogs ++ [⟨st.nextId, u, h, now, none, none, none⟩]
    ∧ (runPostLogsSessionStart st now u h).2.habitLogs =
      st.habitLogs ++ [⟨st.nextId, u, h, now, none, none, none⟩]
    ∧ ((getHabits us r1).2 = []
       ∨ (getHabits us r1).2 =
          [.select "habit_types"
            [("user_id", .str us), ("is_active", .bool true)]
            "created_at" true])
    ∧ writesEndFields (.select "habit_types"
        [("user_id", .str us), ("is_active", .bool true)]
        "created_at" true) = false
    ∧ ((postHabits cu cn ct cm r2).2 = []
       ∨ (postHabits cu cn ct cm r2).2 =
          [.insert "habit_types"
            [("user_id", cu), ("nombre", cn), ("tipo_registro", ct),
             ("meta_diaria", cm)]])
    ∧ writesEndFields (.insert "habit_types"
        [("user_id", cu), ("nombre", cn), ("tipo_registro", ct),
         ("meta_diaria", cm)]) = false
    ∧ ((postLogsEvent vu vh now r3).2 = []
       ∨ (postLogsEvent vu vh now r3).2 =
          [.insert "habit_logs"
            [("user_id", vu), ("habit_type_id", vh),
             ("fecha_inicio", .str now)]])
    ∧ ((postLogsSessionStart vu vh now r4).2 = []
       ∨ (postLogsSessionStart vu vh now r4).2 =
          [.insert "habit_logs"
            [("user_id", vu), ("habit_type_id", vh),
             ("fecha_inicio", .str now)]])
    ∧ writesEndFields (.insert "habit_logs"
        [("user_id", vu), ("habit_type_id", vh),
         ("fecha_inicio", .str now)]) = false
    ∧ ((putLogsSessionEnd lid dur nts now r5).2 = []
       ∨ (putLogsSessionEnd lid dur nts now r5).2 =
          [.update "habit_logs"
            [("fecha_fin", .str now), ("duracion_segundos", dur),
             ("notas", nts)] ("id", lid)])
    ∧ isDelete (.select "habit_types"
        [("user_id", .str us), ("is_active", .bool true)]
        "created_at" true) = false
    ∧ isDelete (.insert "habit_types"
        [("user_id", cu), ("nombre", cn), ("tipo_registro", ct),
         ("meta_diaria", cm)]) = false
    ∧ isDelete (.insert "habit_logs"
        [("user_id", vu), ("habit_type_id", vh),
         ("fecha_inicio", .str now)]) = false
    ∧ isDelete (.update "habit_logs"
        [("fecha_fin", .str now), ("duracion_segundos", dur),
         ("notas", nts)] ("id", lid)) = false
    ∧ (storeUpdateHabitLogEnd st lid now dur nts).habitTypes = st.habitTypes
    ∧ (storeUpdateHabitLogEnd st lid now dur nts).nextId = st.nextId
    ∧ (storeUpdateHabitLogEnd st lid now dur nts).habitLogs =
        st.habitLogs.map (endPatch lid now dur nts)
    ∧ (JVal.num (r.id : Int) ≠ lid → endPatch lid now dur nts r = r)
    ∧ (endPatch lid now dur nts r).id = r.id
    ∧ (endPatch lid now dur nts r).user_id = r.user_id
    ∧ (endPatch lid now dur nts r).habit_type_id = r.habit_type_id
    ∧ (endPatch lid now dur nts r).fecha_inicio = r.fecha_inicio
    ∧ (JVal.num (r.id : Int) = lid →
        endPatch lid now dur nts r =
          ⟨r.id, r.user_id, r.habit_type_id, r.fecha_inicio,
           some now, some dur, some nts⟩)
    ∧ (storeUpdateHabitLogEnd st lid now dur nts).habitLogs.length =
        st.habitLogs.length
    ∧ (runPutLogsSessionEnd st now lid dur nts).2.habitLogs.length =
        st.habitLogs.length
    ∧ (runPostLogsEvent st now u h).2.habitLogs.length =
        st.habitLogs.length + 1 := by
  refine ⟨?_, ?_, ?_, rfl, ?_, rfl, ?_, ?_, rfl, ?_, rfl, rfl, rfl, rfl,
    rfl, rfl, rfl, ?_, ?_, ?_, ?_, ?_, ?_, ?_, ?_, ?_⟩
  · simp [runPostLogsEvent, postLogsEvent, storeInsertHabitLog, hu, hh]
  · simp [runPostLogsSessionStart, postLogsSessionStart,
      storeInsertHabitLog, hu, hh]
  · cases htr : truthy (JVal.str us) <;> cases r1 <;>
      simp [getHabits, htr]
  · cases hc : (!truthy cu || !truthy cn || !truthy ct) <;> cases r2 <;>
      simp [postHabits, hc]
  · cases hc : (!truthy vu || !truthy vh) <;> cases r3 <;>
      simp [postLogsEvent, hc]
  · cases hc : (!truthy vu || !truthy vh) <;> cases r4 <;>
      simp [postLogsSessionStart, hc]
  · cases hc : (!truthy lid || isUndef dur) <;> cases r5 <;>
      simp [putLogsSessionEnd, hc]
  · intro hne
    simp [endPatch, hne]
  · by_cases he : JVal.num (r.id : Int) = lid <;> simp [endPatch, he]
  · by_cases he : JVal.num (r.id : Int) = lid <;> simp [endPatch, he]
  · by_cases he : JVal.num (r.id : Int) = lid <;> simp [endPatch, he]
  · by_cases he : JVal.num (r.id : Int) = lid <;> simp [endPatch, he]
  · intro he
    simp [endPatch, he]
  · simp [storeUpdateHabitLogEnd]
  · cases hc : (!truthy lid || isUndef dur) <;>
      simp [runPutLogsSessionEnd, putLogsSessionEnd, hc,
        storeUpdateHabitLogEnd]
  · simp [runPostLogsEvent, postLogsEvent, storeInsertHabitLog, hu, hh]

/-- Witness for C8: ending session 0 on a store with two open logs patches
exactly the end fields of row 0 and leaves row 1 untouched. -/
theorem habitLog_lifecycle_invariant_witness :
    truthy (.str "u1") = true ∧ truthy (.str "h1") = true
    ∧ (runPostLogsEvent ⟨[], [], 0⟩ "T0" (.str "u1")
        (.str "h1")).2.habitLogs =
      [] ++ [⟨0, .str "u1", .str "h1", "T0", none, none, none⟩]
    ∧ (storeUpdateHabitLogEnd
        ⟨[], [⟨0, .str "u1", .str "h1", "T0", none, none, none⟩,
              ⟨1, .str "u1", .str "h1", "T1", none, none, none⟩], 2⟩
        (.num 0) "T2" (.num 60) .null).habitLogs =
      [⟨0, .str "u1", .str "h1", "T0", none, none, none⟩,
       ⟨1, .str "u1", .str "h1", "T1", none, none, none⟩].map
        (endPatch (.num 0) "T2" (.num 60) .null)
    ∧ endPatch (.num 0) "T2" (.num 60) .null
        ⟨0, .str "u1", .str "h1", "T0", none, none, none⟩ =
      ⟨0, .str "u1", .str "h1", "T0", some "T2", some (.num 60),
       some .null⟩
    ∧ endPatch (.num 0) "T2" (.num 60) .null
        ⟨1, .str "u1", .str "h1", "T1", none, none, none⟩ =
      ⟨1, .str "u1", .str "h1", "T1", none, none, none⟩ := by
  have base1 := habitLog_lifecycle_invariant
    ⟨[], [⟨0, .str "u1", .str "h1", "T0", none, none, none⟩,
          ⟨1, .str "u1", .str "h1", "T1", none, none, none⟩], 2⟩
    "T2" (.str "u1") (.str "h1") (by decide) (by decide) "u1"
    (.str "u") (.str "n") (.str "t") .null (.str "u") (.str "h")
    (.num 0) (.num 60) .null (.ok []) (.ok ()) (.ok ()) (.ok ())
    (.ok (.num 0)) ⟨1, .str "u1", .str "h1", "T1", none, none, none⟩
  have base0 := habitLog_lifecycle_invariant
    ⟨[], [⟨0, .str "u1", .str "h1", "T0", none, none, none⟩,
          ⟨1, .str "u1", .str "h1", "T1", none, none, none⟩], 2⟩
    "T2" (.str "u1") (.str "h1") (by decide) (by decide) "u1"
    (.str "u") (.str "n") (.str "t") .null (.str "u") (.str "h")
    (.num 0) (.num 60) .null (.ok []) (.ok ()) (.ok ()) (.ok ())
    (.ok (.num 0)) ⟨0, .str "u1", .str "h1", "T0", none, none, none⟩
  exact ⟨by decide, by decide,
    (habitLog_lifecycle_invariant ⟨[], [], 0⟩ "T0" (.str "u1") (.str "h1")
      (by decide) (by decide) "u1" (.str "u") (.str "n") (.str "t") .null
      (.str "u") (.str "h") (.num 0) (.num 60) .null (.ok []) (.ok ())
      (.ok ()) (.ok ()) (.ok (.num 0))
      ⟨1, .str "u1", .str "h1", "T1", none, none, none⟩).1,
    base1.2.2.2.2.2.2.2.2.2.2.2.2.2.2.2.2.1,
    base0.2.2.2.2.2.2.2.2.2.2.2.2.2.2.2.2.2.2.2.2.2.2.1 (by decide),
    base1.2.2.2.2.2.2.2.2.2.2.2.2.2.2.2.2.2.1 (by decide)⟩

/-- C9: required-field presence is JavaScript falsiness — a present but
falsy field value (0, "", null, false) is rejected with 400 exactly as if
the field were absent, with no store call; only `durationSeconds` is
compared against `undefined` alone, so `durationSeconds` null or 0 passes
validation, while `logId = 0` never reaches the store. -/
theorem falsy_required_fields_rejected
    (v : JVal) (hv : truthy v = false)
    (uid hid n t m dur nts : JVal) (lid : JVal) (hl : truthy lid = true)
    (now : String)
    (r1 : Except String (List HabitTypeRow)) (r2 r3 r5 : Except String Unit)
    (r4 : Except String JVal) :
    getHabits "" r1 =
      (⟨400, .errorBody "Falta el parámetro userId en la URL."⟩, [])
    ∧ (postHabits v n t m r2 = postHabits .undef n t m r2
       ∧ (postHabits v n t m r2).1.status = 400
       ∧ (postHabits v n t m r2).2 = [])
    ∧ (postHabits uid v t m r2 = postHabits uid .undef t m r2
       ∧ (postHabits uid v t m r2).1.status = 400
       ∧ (postHabits uid v t m r2).2 = [])
    ∧ (postHabits uid n v m r2 = postHabits uid n .undef m r2
       ∧ (postHabits uid n v m r2).1.status = 400
       ∧ (postHabits uid n v m r2).2 = [])
    ∧ (postLogsEvent v hid now r3 = postLogsEvent .undef hid now r3
       ∧ (postLogsEvent v hid now r3).1.status = 400
       ∧ (postLogsEvent v hid now r3).2 = [])
    ∧ (postLogsEvent uid v now r3 = postLogsEvent uid .undef now r3
       ∧ (postLogsEvent uid v now r3).1.status = 400
       ∧ (postLogsEvent uid v now r3).2 = [])
    ∧ (postLogsSessionStart v hid now r4 =
        postLogsSessionStart .undef hid now r4
       ∧ (postLogsSessionStart v hid now r4).1.status = 400
       ∧ (postLogsSessionStart v hid now r4).2 = [])
    ∧ (postLogsSessionStart uid v now r4 =
        postLogsSessionStart uid .undef now r4
       ∧ (postLogsSessionStart uid v now r4).1.status = 400
       ∧ (postLogsSessionStart uid v now r4).2 = [])
    ∧ (putLogsSessionEnd v dur nts now r5 =
        putLogsSessionEnd .undef dur nts now r5
       ∧ (putLogsSessionEnd v dur nts now r5).1.status = 400
       ∧ (putLogsSessionEnd v dur nts now r5).2 = [])
    ∧ ((putLogsSessionEnd lid .null nts now r5).1.status ≠ 400
       ∧ (putLogsSessionEnd lid .null nts now r5).2 =
          [.update "habit_logs"
            [("fecha_fin", .str now), ("duracion_segundos", .null),
             ("notas", nts)] ("id", lid)])
    ∧ ((putLogsSessionEnd lid (.num 0) nts now r5).1.status ≠ 400
       ∧ (putLogsSessionEnd lid (.num 0) nts now r5).2 =
          [.update "habit_logs"
            [("fecha_fin", .str now), ("duracion_segundos", .num 0),
             ("notas", nts)] ("id", lid)])
    ∧ ((putLogsSessionEnd (.num 0) dur nts now r5).1.status = 400
       ∧ (putLogsSessionEnd (.num 0) dur nts now r5).2 = []) := by
  refine ⟨rfl, ?_, ?_, ?_, ?_, ?_, ?_, ?_, ?_, ?_, ?_, ?_⟩
  · exact ⟨by simp [postHabits, hv, truthy_undef],
      by simp [postHabits, hv], by simp [postHabits, hv]⟩
  · exact ⟨by simp [postHabits, hv, truthy_undef],
      by simp [postHabits, hv], by simp [postHabits, hv]⟩
  · exact ⟨by simp [postHabits, hv, truthy_undef],
      by simp [postHabits, hv], by simp [postHabits, hv]⟩
  · exact ⟨by simp [postLogsEvent, hv, truthy_undef],
      by simp [postLogsEvent, hv], by simp [postLogsEvent, hv]⟩
  · exact ⟨by simp [postLogsEvent, hv, truthy_undef],
      by simp [postLogsEvent, hv], by simp [postLogsEvent, hv]⟩
  · exact ⟨by simp [postLogsSessionStart, hv, truthy_undef],
      by simp [postLogsSessionStart, hv],
      by simp [postLogsSessionStart, hv]⟩
  · exact ⟨by simp [postLogsSessionStart, hv, truthy_undef],
      by simp [postLogsSessionStart, hv],
      by simp [postLogsSessionStart, hv]⟩
  · exact ⟨by simp [putLogsSessionEnd, hv, truthy_undef],
      by simp [putLogsSessionEnd, hv], by simp [putLogsSessionEnd, hv]⟩
  · cases r5 <;> simp [putLogsSessionEnd, hl, isUndef_null]
  · cases r5 <;> simp [putLogsSessionEnd, hl, isUndef]
  · simp [putLogsSessionEnd, truthy]

/-- Witness for C9: with a present but falsy `userId = ""` the create
handler rejects as if the field were absent; session-end accepts a zero
duration for log 42 but rejects `logId = 0` without touching the store. -/
theorem falsy_required_fields_rejected_witness :
    truthy (.str "") = false ∧ truthy (.num 42) = true
    ∧ (postHabits (.str "") (.str "Leer") (.str "contador") .null
        (.ok ())).1.status = 400
    ∧ (putLogsSessionEnd (.num 42) (.num 0) (.undef) "T0"
        (.ok ())).1.status ≠ 400
    ∧ (putLogsSessionEnd (.num 0) (.num 120) (.undef) "T0" (.ok ())).2 =
        [] := by
  have base := falsy_required_fields_rejected (.str "") (by decide)
    (.str "u") (.str "h") (.str "n") (.str "t") .null (.num 120) .undef
    (.num 42) (by decide) "T0" (.ok []) (.ok ()) (.ok ()) (.ok ())
    (.ok (.num 0))
  exact ⟨by decide, by decide, base.2.1.2.1,
    base.2.2.2.2.2.2.2.2.2.2.1.1,
    base.2.2.2.2.2.2.2.2.2.2.2.2⟩

/-- C10: each handler is a deterministic, stateless function of its request,
the server clock and the store's reply: two raw requests agreeing on the
fields the handler destructures — even if they differ on any other field —
yield the identical status, body and store-call trace under the same clock
reading and store reply. -/
theorem handlers_deterministic_in_declared_fields
    (p1 p2 : List (String × String)) (b1 b2 : List (String × JVal))
    (now : String)
    (r1 : Except String (List HabitTypeRow)) (r2 r3 r5 : Except String Unit)
    (r4 : Except String JVal)
    (hp : paramGet p1 "userId" = paramGet p2 "userId")
    (hu : bodyGet b1 "userId" = bodyGet b2 "userId")
    (hn : bodyGet b1 "nombre" = bodyGet b2 "nombre")
    (ht : bodyGet b1 "tipoRegistro" = bodyGet b2 "tipoRegistro")
    (hm : bodyGet b1 "metaDiaria" = bodyGet b2 "metaDiaria")
    (hh : bodyGet b1 "habitTypeId" = bodyGet b2 "habitTypeId")
    (hl : bodyGet b1 "logId" = bodyGet b2 "logId")
    (hd : bodyGet b1 "durationSeconds" = bodyGet b2 "durationSeconds")
    (hno : bodyGet b1 "notas" = bodyGet b2 "notas") :
    getHabitsRaw p1 r1 = getHabitsRaw p2 r1
    ∧ postHabitsRaw b1 r2 = postHabitsRaw b2 r2
    ∧ postLogsEventRaw b1 now r3 = postLogsEventRaw b2 now r3
    ∧ postLogsSessionStartRaw b1 now r4 = postLogsSessionStartRaw b2 now r4
    ∧ putLogsSessionEndRaw b1 now r5 = putLogsSessionEndRaw b2 now r5 := by
  unfold getHabitsRaw postHabitsRaw postLogsEventRaw postLogsSessionStartRaw
    putLogsSessionEndRaw
  rw [hp, hu, hn, ht, hm, hh, hl, hd, hno]
  exact ⟨rfl, rfl, rfl, rfl, rfl⟩

/-- Witness for C10: an end-session body carrying an extra `debug` field and
a different field order produces the same response and trace as the plain
body. -/
theorem handlers_deterministic_in_declared_fields_witness :
    putLogsSessionEndRaw
      [("logId", .num 3), ("durationSeconds", .num 0),
       ("userId", .str "u1"), ("habitTypeId", .str "h1"),
       ("debug", .bool true)] "T0" (.ok ()) =
      putLogsSessionEndRaw
        [("userId", .str "u1"), ("habitTypeId", .str "h1"),
         ("logId", .num 3), ("durationSeconds", .num 0)] "T0" (.ok ())
    ∧ getHabitsRaw [("userId", "u1"), ("extra", "zz")] (.ok []) =
      getHabitsRaw [("userId", "u1")] (.ok []) := by
  have base := handlers_deterministic_in_declared_fields
    [("userId", "u1"), ("extra", "zz")] [("userId", "u1")]
    [("logId", .num 3), ("durationSeconds", .num 0),
     ("userId", .str "u1"), ("habitTypeId", .str "h1"),
     ("debug", .bool true)]
    [("userId", .str "u1"), ("habitTypeId", .str "h1"),
     ("logId", .num 3), ("durationSeconds", .num 0)]
    "T0" (.ok []) (.ok ()) (.ok ()) (.ok ()) (.ok (.num 0))
    (by decide) (by decide) (by decide) (by decide) (by decide)
    (by decide) (by decide) (by decide) (by decide)
  exact ⟨base.2.2.2.2, base.1⟩

end MiEspejo
